import Mathlib

/-!
Shallow embedding of `src/manager.ts` (class `Manager`) of vscode-livepreview:
the lifecycle coordinator for the preview HTTP server, the embedded preview
panel and the external task bridge.  External collaborators (`Server`,
`ServerTaskProvider`, `WorkspaceManager`, `EndpointManager`,
`ConnectionManager`, `BrowserPreview`) are modelled at their interface
boundary; where their code is not part of this repository the model follows
the specification and the definition's doc comment says so.

Each coordinator method becomes a pure function on an explicit `World`
state returning the successor state together with the list of observable
commands (`Effect`) it issues to the collaborators.  The asynchronous parts
(the `onConnected` notification, panel disposal, the shutdown timer) become
inbound events of a step relation, as the spec's design notes prescribe.
-/

namespace LivePreview

/-- `ServerStartedStatus` from `task/serverTaskProvider.ts` as used by
`manager.ts` (lines 125 and 232). -/
inductive ServerStartedStatus where
  | JUST_STARTED
  | STARTED_BY_EMBEDDED_PREV
  deriving DecidableEq, Repr

/-- The settings `manager.ts` reads through `SettingUtil.GetConfig`:
port number, the `runTaskWithExternalPreview` flag, the keep-alive delay in
minutes, the loose-file prompt preference and the task-logging flag.
The keep-alive delay is modelled as a whole number of minutes. -/
structure Config where
  portNumber : Nat
  runTaskWithExternalPreview : Bool
  serverKeepAliveAfterEmbeddedPreviewClose : Nat
  notifyOnOpenLooseFile : Bool
  browserPreviewLaunchServerLogging : Bool

/-- Modelled from the spec: the `WorkspaceManager` collaborator (spec §6),
whose source is not part of this repository — `workspace` presence and the
three path queries `manager.ts` calls on it. -/
structure Env where
  hasWorkspace : Bool
  absPathInDefaultWorkspace : String → Bool
  absPathInAnyWorkspace : String → Bool
  getFileRelativeToDefaultWorkspace : String → String

/-- `launchInfo` (manager.ts lines 26-31); webview panels are identified by
numbers. -/
structure LaunchInfo where
  external : Bool
  file : String
  relative : Bool
  panel : Option Nat
  deriving DecidableEq, Repr

/-- The observable commands the coordinator issues to its collaborators. -/
inductive Effect where
  | serverStartRequest (port : Nat)
  | serverClose
  | serverStarted (status : ServerStartedStatus)
  | serverStop (now : Bool)
  | extRunTask (verbose : Bool)
  | openExternalBrowser (url : String)
  | createPanel
  | createSession (file : String)
  | revealPanel (file : String)
  | closePanel
  | disconnected
  | telemetry (event : String)
  | showWarningPrompt
  | scheduleTimer (ms : Nat)
  | cancelTimer
  deriving DecidableEq, Repr

/-- The mutable fields of class `Manager` (manager.ts lines 33-43) that the
claims concern.  `currentPanel` holds the file the live `BrowserPreview` is
bound to; `currentTimeout` holds the stored shutdown-timer handle. -/
structure ManagerState where
  currentPanel : Option String
  previewActive : Bool
  currentTimeout : Option Nat
  notifiedAboutLooseFiles : Bool
  pendingLaunchInfo : Option LaunchInfo
  runTaskWithExternalPreview : Bool
  deriving DecidableEq, Repr

/-- The coordinator state together with the collaborator state it consults:
`serverRunning` is `Server.isRunning`, `taskRunning` is
`ServerTaskProvider.isRunning`, `pendingTimers` are the host timers
scheduled and not yet fired or cancelled, `httpPort` is
`ConnectionManager.httpPort`.  Modelled from the spec: `Server.isRunning`
stays false from the start request until the `connected` notification is
delivered (spec §5: the start completes asynchronously via `onConnected`). -/
structure World where
  mgr : ManagerState
  serverRunning : Bool
  taskRunning : Bool
  pendingTimers : List Nat
  nextTimerId : Nat
  httpPort : Nat
  deriving DecidableEq, Repr

/-- `HOST` from `utils/constants.ts`.  Modelled from the spec: the constants
file is not part of this repository; the external URI targets the local
address (manager.ts line 267). -/
def HOST : String := "127.0.0.1"

/-- Modelled from the spec: `EndpointManager.encodeLooseFileEndpoint`
(spec §6) maps an arbitrary file path to a stable server-relative endpoint;
its source is not part of this repository.  Modelled as prefixing a
reserved endpoint segment. -/
def encodeLooseFileEndpoint (file : String) : String :=
  "/endpoint_unsaved" ++ file

/-- Embeds the regex replacement of every backslash by a forward slash that
`launchFileInExternalBrowser` applies (manager.ts lines 260-263). -/
def normalizeSlashes (s : String) : String :=
  String.mk (s.data.map fun c => if c = '\\' then '/' else c)

/-- `notifyLooseFileOpen` (manager.ts lines 379-400): always send the
telemetry event, show the warning prompt only when the latch is unset and
the setting allows it, and set the latch unconditionally. -/
def notifyLooseFileOpen (cfg : Config) (s : ManagerState) :
    ManagerState × List Effect :=
  let effs := [Effect.telemetry "preview.fileOutOfWorkspace"]
  let effs :=
    if !s.notifiedAboutLooseFiles && cfg.notifyOnOpenLooseFile then
      effs ++ [Effect.showWarningPrompt]
    else effs
  ({ s with notifiedAboutLooseFiles := true }, effs)

/-- `transformNonRelativeFile` (manager.ts lines 365-377). -/
def transformNonRelativeFile (cfg : Config) (env : Env) (relative : Bool)
    (file : String) (s : ManagerState) : ManagerState × List Effect × String :=
  if !relative then
    if !env.absPathInDefaultWorkspace file then
      let p :=
        if !env.absPathInAnyWorkspace file then notifyLooseFileOpen cfg s
        else (s, [])
      (p.1, p.2, encodeLooseFileEndpoint file)
    else
      (s, [], env.getFileRelativeToDefaultWorkspace file)
  else
    (s, [], file)

/-- `launchFileInExternalBrowser` (manager.ts lines 259-269). -/
def launchFileInExternalBrowser (cfg : Config) (env : Env) (file : String)
    (relative : Bool) (w : World) : World × List Effect :=
  let t := transformNonRelativeFile cfg env relative file w.mgr
  let relFile := normalizeSlashes t.2.2
  ({ w with mgr := t.1 },
   t.2.1 ++ [Effect.openExternalBrowser
     ("http://" ++ HOST ++ ":" ++ toString w.httpPort ++ relFile)])

/-- `startEmbeddedPreview` (manager.ts lines 299-347): cancel the stored
shutdown timer if one is held, construct the `BrowserPreview` session and
set `previewActive`.  The `onDispose` registration is modelled by the
`panelDisposed` event below. -/
def startEmbeddedPreview (file : String) (w : World) : World × List Effect :=
  let p :=
    match w.mgr.currentTimeout with
    | some id => (w.pendingTimers.filter (fun t => t != id), [Effect.cancelTimer])
    | none => (w.pendingTimers, ([] : List Effect))
  ({ w with
      pendingTimers := p.1,
      mgr := { w.mgr with currentPanel := some file, previewActive := true } },
   p.2 ++ [Effect.createSession file])

/-- `launchFileInEmbeddedPreview` (manager.ts lines 271-297): reveal the
existing panel if there is one, otherwise create a fresh webview panel
unless one was supplied, then start the session. -/
def launchFileInEmbeddedPreview (cfg : Config) (env : Env) (file : String)
    (relative : Bool) (panel : Option Nat) (w : World) : World × List Effect :=
  let t := transformNonRelativeFile cfg env relative file w.mgr
  let w1 : World := { w with mgr := t.1 }
  match w1.mgr.currentPanel with
  | some _ =>
      ({ w1 with mgr := { w1.mgr with currentPanel := some t.2.2 } },
       t.2.1 ++ [Effect.revealPanel t.2.2])
  | none =>
      let paneleffs : List Effect :=
        match panel with
        | some _ => []
        | none => [Effect.createPanel]
      let p := startEmbeddedPreview t.2.2 w1
      (p.1, t.2.1 ++ paneleffs ++ p.2)

/-- `openServer` (manager.ts lines 225-238).  `startOk` is the boolean
result of `Server.openServer` (modelled from the spec:
`start(port) -> success`); the world is unchanged because `isRunning`
becomes true only at the `connected` notification. -/
def openServer (startOk : Bool) (fromTask : Bool) (w : World) :
    World × List Effect × Bool :=
  if !w.serverRunning then
    (w, [Effect.serverStartRequest w.httpPort], startOk)
  else if fromTask then
    (w, [Effect.serverStarted ServerStartedStatus.STARTED_BY_EMBEDDED_PREV], true)
  else
    (w, [], true)

/-- `closeServer` (manager.ts lines 241-257). -/
def closeServer (w : World) : World × List Effect × Bool :=
  if w.serverRunning then
    ({ w with serverRunning := false },
     [Effect.serverClose]
       ++ (if w.mgr.currentPanel.isSome then [Effect.closePanel] else [])
       ++ (if w.taskRunning then [Effect.serverStop true] else [])
       ++ [Effect.disconnected],
     true)
  else
    (w, [], false)

/-- `createOrShowEmbeddedPreview` (manager.ts lines 178-194). -/
def createOrShowEmbeddedPreview (cfg : Config) (env : Env) (startOk : Bool)
    (panel : Option Nat) (file : String) (relative : Bool) (w : World) :
    World × List Effect :=
  if !w.serverRunning then
    let info : LaunchInfo := ⟨false, file, relative, panel⟩
    let w1 : World := { w with mgr := { w.mgr with pendingLaunchInfo := some info } }
    let p := openServer startOk false w1
    (p.1, p.2.1)
  else
    launchFileInEmbeddedPreview cfg env file relative panel w

/-- `showPreviewInBrowser` (manager.ts lines 196-223).  The
`if (!serverOn) return;` at line 216 is the last statement of its branch,
so it changes nothing observable; the method returns no value. -/
def showPreviewInBrowser (cfg : Config) (env : Env) (startOk : Bool)
    (file : String) (relative : Bool) (w : World) : World × List Effect :=
  if !w.taskRunning then
    let info : LaunchInfo := ⟨true, file, relative, none⟩
    let p :=
      if !w.serverRunning then
        (({ w with mgr := { w.mgr with pendingLaunchInfo := some info } } : World),
         ([] : List Effect))
      else
        launchFileInExternalBrowser cfg env file relative w
    if env.hasWorkspace && p.1.mgr.runTaskWithExternalPreview then
      (p.1, p.2 ++ [Effect.extRunTask cfg.browserPreviewLaunchServerLogging])
    else
      let q := openServer startOk false p.1
      (q.1, p.2 ++ q.2.1)
  else
    launchFileInExternalBrowser cfg env file relative w

/-- The `onConnected` handler (manager.ts lines 122-143): announce
`JUST_STARTED`, dispatch the pending launch if any through the same
embedded/external paths, then clear the slot.  The server is `Running` once
this notification fires (spec §3/§5). -/
def onConnected (cfg : Config) (env : Env) (w : World) : World × List Effect :=
  let w0 : World := { w with serverRunning := true }
  let e0 := [Effect.serverStarted ServerStartedStatus.JUST_STARTED]
  match w0.mgr.pendingLaunchInfo with
  | some info =>
      let p :=
        if info.external then
          launchFileInExternalBrowser cfg env info.file info.relative w0
        else
          launchFileInEmbeddedPreview cfg env info.file info.relative info.panel w0
      ({ p.1 with mgr := { p.1.mgr with pendingLaunchInfo := none } }, e0 ++ p.2)
  | none => (w0, e0)

/-- The `onDispose` handler registered in `startEmbeddedPreview`
(manager.ts lines 327-346): clear the session reference and schedule the
shutdown timer for `keepAlive * 1000 * 60` milliseconds, storing its
handle.  No previously stored timer is cleared here. -/
def onPanelDisposed (cfg : Config) (w : World) : World × List Effect :=
  let delayMs := cfg.serverKeepAliveAfterEmbeddedPreviewClose * 1000 * 60
  let id := w.nextTimerId
  ({ w with
      mgr := { w.mgr with currentPanel := none, currentTimeout := some id },
      pendingTimers := w.pendingTimers ++ [id],
      nextTimerId := id + 1 },
   [Effect.scheduleTimer delayMs])

/-- The shutdown-timer callback (manager.ts lines 333-344): once the timer
with handle `id` fires it is no longer pending; close the server only when
it still runs, no task flow is active, a workspace is open and the
run-as-task flag is set; clear `previewActive` regardless. -/
def onShutdownTimerFired (env : Env) (id : Nat) (w : World) : World × List Effect :=
  let w0 : World := { w with pendingTimers := w.pendingTimers.filter (fun t => t != id) }
  if w0.serverRunning && !w0.taskRunning && env.hasWorkspace
      && w0.mgr.runTaskWithExternalPreview then
    let p := closeServer w0
    ({ p.1 with mgr := { p.1.mgr with previewActive := false } }, p.2.1)
  else
    ({ w0 with mgr := { w0.mgr with previewActive := false } }, [])

/-- The `onRequestToCloseServer` handler (manager.ts lines 111-120). -/
def onRequestToCloseServer (w : World) : World × List Effect :=
  if w.mgr.previewActive then
    (w, [Effect.serverStop false])
  else
    let p := closeServer w
    (p.1, p.2.1 ++ [Effect.serverStop true])

/-- The configuration-change handler (manager.ts lines 145-155): re-read the
cached `runTaskWithExternalPreview` flag. -/
def onConfigChanged (cfg : Config) (w : World) : World × List Effect :=
  ({ w with mgr := { w.mgr with
      runTaskWithExternalPreview := cfg.runTaskWithExternalPreview } }, [])

/-- The inbound events of the coordinator: the public operations, the
collaborator notifications and the host timer callbacks (spec §4/§6).
`taskStateChanged` models the external task's own lifecycle flag. -/
inductive Event where
  | reqEmbedded (panel : Option Nat) (file : String) (relative : Bool)
  | reqBrowser (file : String) (relative : Bool)
  | openServerCmd (fromTask : Bool)
  | closeServerCmd
  | connected
  | panelDisposed
  | timerFired (id : Nat)
  | taskOpenReq
  | taskCloseReq
  | configChanged
  | taskStateChanged (running : Bool)
  deriving DecidableEq, Repr

/-- One synchronous reaction of the coordinator to an inbound event.
`cfg` is the configuration the settings store answers during this step,
`env` the workspace layout, `startOk` the result `Server.openServer` would
return if asked. -/
def step (cfg : Config) (env : Env) (startOk : Bool) (e : Event) (w : World) :
    World × List Effect :=
  match e with
  | .reqEmbedded panel file rel => createOrShowEmbeddedPreview cfg env startOk panel file rel w
  | .reqBrowser file rel => showPreviewInBrowser cfg env startOk file rel w
  | .openServerCmd fromTask =>
      let p := openServer startOk fromTask w
      (p.1, p.2.1)
  | .closeServerCmd =>
      let p := closeServer w
      (p.1, p.2.1)
  | .connected => onConnected cfg env w
  | .panelDisposed => onPanelDisposed cfg w
  | .timerFired id => onShutdownTimerFired env id w
  | .taskOpenReq =>
      let p := openServer startOk true w
      (p.1, p.2.1)
  | .taskCloseReq => onRequestToCloseServer w
  | .configChanged => onConfigChanged cfg w
  | .taskStateChanged b => ({ w with taskRunning := b }, [])

/-- Host-delivery constraints: a panel-dispose notification needs a live
panel (a `BrowserPreview.onDispose` is single-fire per session, spec §4.2)
and a timer callback needs that timer to still be pending. -/
def enabled (e : Event) (w : World) : Prop :=
  match e with
  | .panelDisposed => w.mgr.currentPanel.isSome = true
  | .timerFired id => id ∈ w.pendingTimers
  | _ => True

/-- The coordinator right after the constructor ran with configuration
`cfg` (manager.ts lines 57-172). -/
def initWorld (cfg : Config) : World :=
  { mgr := { currentPanel := none, previewActive := false, currentTimeout := none,
             notifiedAboutLooseFiles := false, pendingLaunchInfo := none,
             runTaskWithExternalPreview := cfg.runTaskWithExternalPreview },
    serverRunning := false, taskRunning := false,
    pendingTimers := [], nextTimerId := 0, httpPort := cfg.portNumber }

/-- The worlds the coordinator can actually be in: an initial world followed
by enabled steps, with configuration, workspace layout and server-start
success arbitrary at each step. -/
inductive Reachable : World → Prop where
  | init (cfg : Config) : Reachable (initWorld cfg)
  | next (cfg : Config) (env : Env) (ok : Bool) (e : Event) (w : World) :
      Reachable w → enabled e w → Reachable (step cfg env ok e w).1

/-- Counts the server-start requests in an effect trace. -/
def Effect.isStart : Effect → Bool
  | .serverStartRequest _ => true
  | _ => false

/-- Counts the `BrowserPreview` session constructions in an effect trace. -/
def Effect.isCreateSession : Effect → Bool
  | .createSession _ => true
  | _ => false

/-- Counts the webview-panel creations in an effect trace. -/
def Effect.isCreatePanel : Effect → Bool
  | .createPanel => true
  | _ => false

/-- Counts the external-browser launches in an effect trace. -/
def Effect.isOpenExternal : Effect → Bool
  | .openExternalBrowser _ => true
  | _ => false

def nStarts (l : List Effect) : Nat := l.countP Effect.isStart

def nSessions (l : List Effect) : Nat := l.countP Effect.isCreateSession

def nPanels (l : List Effect) : Nat := l.countP Effect.isCreatePanel

def nExternal (l : List Effect) : Nat := l.countP Effect.isOpenExternal

/-- Runs a whole sequence of `createOrShowEmbeddedPreview` calls, collecting
the issued effects. -/
def runEmbedded (cfg : Config) (env : Env) (ok : Bool) :
    List (Option Nat × String × Bool) → World → World × List Effect
  | [], w => (w, [])
  | r :: rest, w =>
      let p := createOrShowEmbeddedPreview cfg env ok r.1 r.2.1 r.2.2 w
      let q := runEmbedded cfg env ok rest p.1
      (q.1, p.2 ++ q.2)

/-- The shutdown-timer bookkeeping invariant: at most one timer is pending,
a pending timer implies the panel is already gone, and every pending timer
is the one whose handle is stored in `currentTimeout`. -/
def TimerInv (w : World) : Prop :=
  w.pendingTimers.length ≤ 1
  ∧ (w.pendingTimers ≠ [] → w.mgr.currentPanel = none)
  ∧ (∀ id ∈ w.pendingTimers, w.mgr.currentTimeout = some id)

/-- A sample configuration: port 3000, run-as-task on, one minute of
keep-alive, loose-file prompt enabled, task logging off. -/
def cfgFix : Config := ⟨3000, true, 1, true, false⟩

/-- The sample configuration with `runTaskWithExternalPreview` disabled. -/
def cfgFixNoTask : Config := ⟨3000, false, 1, true, false⟩

/-- The sample configuration with the loose-file prompt disabled. -/
def cfgFixNoPrompt : Config := ⟨3000, true, 1, false, false⟩

/-- A sample workspace layout: one default workspace holding
`/ws/sub/page.html`, one further workspace holding `/otherws/f.html`. -/
def envFix : Env :=
  ⟨true,
   fun f => f == "/ws/sub/page.html",
   fun f => f == "/ws/sub/page.html" || f == "/otherws/f.html",
   fun f => if f == "/ws/sub/page.html" then "sub/page.html" else f⟩

def w0Fix : World := initWorld cfgFix

def wRunFix : World := { w0Fix with serverRunning := true }

/-- The world after: server connected, an embedded preview opened, then its
panel disposed by the user — the keep-alive window of claim C3. -/
def wDisposedFix : World :=
  (step cfgFix envFix true Event.panelDisposed
    (step cfgFix envFix true (Event.reqEmbedded none "/" true)
      (step cfgFix envFix true Event.connected w0Fix).1).1).1

/-- The world after a `showPreviewInBrowser` request whose direct server
start failed (no workspace task path, `startOk = false`). -/
def wFailedStartFix : World :=
  (step cfgFixNoTask envFix false (Event.reqBrowser "/x.html" true)
    (initWorld cfgFixNoTask)).1

/-! ### Frame lemmas about the individual operations -/

theorem transform_relative (cfg : Config) (env : Env) (f : String)
    (s : ManagerState) : transformNonRelativeFile cfg env true f s = (s, [], f) := by
  simp [transformNonRelativeFile]

theorem transform_fst_fields (cfg : Config) (env : Env) (r : Bool) (f : String)
    (s : ManagerState) :
    (transformNonRelativeFile cfg env r f s).1.currentPanel = s.currentPanel
    ∧ (transformNonRelativeFile cfg env r f s).1.previewActive = s.previewActive
    ∧ (transformNonRelativeFile cfg env r f s).1.currentTimeout = s.currentTimeout
    ∧ (transformNonRelativeFile cfg env r f s).1.pendingLaunchInfo = s.pendingLaunchInfo
    ∧ (transformNonRelativeFile cfg env r f s).1.runTaskWithExternalPreview
        = s.runTaskWithExternalPreview := by
  unfold transformNonRelativeFile notifyLooseFileOpen
  split_ifs <;> simp

theorem openServer_fst (ok ft : Bool) (w : World) : (openServer ok ft w).1 = w := by
  unfold openServer
  split_ifs <;> rfl

theorem closeServer_mgr (w : World) : (closeServer w).1.mgr = w.mgr := by
  unfold closeServer
  split_ifs <;> rfl

theorem closeServer_timers (w : World) :
    (closeServer w).1.pendingTimers = w.pendingTimers := by
  unfold closeServer
  split_ifs <;> rfl

theorem launchExternal_fst (cfg : Config) (env : Env) (f : String) (r : Bool)
    (w : World) :
    (launchFileInExternalBrowser cfg env f r w).1
      = { w with mgr := (transformNonRelativeFile cfg env r f w.mgr).1 } := rfl

theorem startEmbedded_mgr (f : String) (w : World) :
    (startEmbeddedPreview f w).1.mgr
      = { w.mgr with currentPanel := some f, previewActive := true } := rfl

theorem startEmbedded_frame (f : String) (w : World) :
    (startEmbeddedPreview f w).1.serverRunning = w.serverRunning
    ∧ (startEmbeddedPreview f w).1.taskRunning = w.taskRunning
    ∧ (startEmbeddedPreview f w).1.httpPort = w.httpPort := ⟨rfl, rfl, rfl⟩

theorem launchEmbedded_frame (cfg : Config) (env : Env) (f : String) (r : Bool)
    (p : Option Nat) (w : World) :
    (launchFileInEmbeddedPreview cfg env f r p w).1.serverRunning = w.serverRunning
    ∧ (launchFileInEmbeddedPreview cfg env f r p w).1.taskRunning = w.taskRunning
    ∧ (launchFileInEmbeddedPreview cfg env f r p w).1.mgr.pendingLaunchInfo
        = w.mgr.pendingLaunchInfo
    ∧ (launchFileInEmbeddedPreview cfg env f r p w).1.mgr.runTaskWithExternalPreview
        = w.mgr.runTaskWithExternalPreview := by
  obtain ⟨h1, h2, h3, h4, h5⟩ := transform_fst_fields cfg env r f w.mgr
  unfold launchFileInEmbeddedPreview startEmbeddedPreview
  cases hcp : w.mgr.currentPanel with
  | some v => simp_all
  | none => cases hct : w.mgr.currentTimeout <;> simp_all

theorem transform_effects_shape (cfg : Config) (env : Env) (r : Bool) (f : String)
    (s : ManagerState) :
    (transformNonRelativeFile cfg env r f s).2.1 = []
    ∨ (transformNonRelativeFile cfg env r f s).2.1
        = [Effect.telemetry "preview.fileOutOfWorkspace"]
    ∨ (transformNonRelativeFile cfg env r f s).2.1
        = [Effect.telemetry "preview.fileOutOfWorkspace", Effect.showWarningPrompt] := by
  unfold transformNonRelativeFile notifyLooseFileOpen
  split_ifs <;> simp

theorem nStarts_transform (cfg : Config) (env : Env) (r : Bool) (f : String)
    (s : ManagerState) : nStarts (transformNonRelativeFile cfg env r f s).2.1 = 0 := by
  rcases transform_effects_shape cfg env r f s with h | h | h <;>
    simp [h, nStarts, Effect.isStart]

theorem nSessions_transform (cfg : Config) (env : Env) (r : Bool) (f : String)
    (s : ManagerState) : nSessions (transformNonRelativeFile cfg env r f s).2.1 = 0 := by
  rcases transform_effects_shape cfg env r f s with h | h | h <;>
    simp [h, nSessions, Effect.isCreateSession]

theorem nPanels_transform (cfg : Config) (env : Env) (r : Bool) (f : String)
    (s : ManagerState) : nPanels (transformNonRelativeFile cfg env r f s).2.1 = 0 := by
  rcases transform_effects_shape cfg env r f s with h | h | h <;>
    simp [h, nPanels, Effect.isCreatePanel]

theorem createOrShow_stopped (cfg : Config) (env : Env) (ok : Bool) (p : Option Nat)
    (f : String) (r : Bool) (w : World) (h : w.serverRunning = false) :
    createOrShowEmbeddedPreview cfg env ok p f r w
      = ({ w with mgr := { w.mgr with pendingLaunchInfo := some ⟨false, f, r, p⟩ } },
         [Effect.serverStartRequest w.httpPort]) := by
  simp [createOrShowEmbeddedPreview, openServer, h]

/-! ### Preservation of the shutdown-timer invariant -/

theorem timerInv_transport (w w' : World)
    (ht : w'.pendingTimers = w.pendingTimers)
    (hp : w'.mgr.currentPanel = w.mgr.currentPanel)
    (hq : w'.mgr.currentTimeout = w.mgr.currentTimeout)
    (h : TimerInv w) : TimerInv w' := by
  obtain ⟨h1, h2, h3⟩ := h
  refine ⟨?_, ?_, ?_⟩
  · rw [ht]; exact h1
  · intro hne; rw [hp]; exact h2 (by rwa [ht] at hne)
  · intro id hid; rw [hq]; exact h3 id (by rwa [ht] at hid)

theorem timers_nil_of_timeout_none {w : World} (h : TimerInv w)
    (hn : w.mgr.currentTimeout = none) : w.pendingTimers = [] := by
  cases ht : w.pendingTimers with
  | nil => rfl
  | cons a as =>
      have ha := h.2.2 a (by simp [ht])
      rw [hn] at ha
      cases ha

theorem timers_nil_of_panel_some {w : World} {v : String} (h : TimerInv w)
    (hp : w.mgr.currentPanel = some v) : w.pendingTimers = [] := by
  by_contra hne
  have := h.2.1 hne
  rw [hp] at this
  cases this

theorem filter_ne_nil_of_all_eq {l : List Nat} {id : Nat} (h : ∀ t ∈ l, t = id) :
    l.filter (fun t => t != id) = [] := by
  induction l with
  | nil => rfl
  | cons a as ih =>
      have ha := h a (by simp)
      simp only [List.filter_cons]
      simp [ha, ih fun t ht => h t (by simp [ht])]

theorem startEmbedded_timers_nil (f : String) (w : World) (h : TimerInv w) :
    (startEmbeddedPreview f w).1.pendingTimers = [] := by
  unfold startEmbeddedPreview
  cases hct : w.mgr.currentTimeout with
  | none => simp [timers_nil_of_timeout_none h hct]
  | some id =>
      have hall : ∀ t ∈ w.pendingTimers, t = id := by
        intro t ht
        have h2 := h.2.2 t ht
        rw [hct] at h2
        exact (Option.some.inj h2).symm
      simp [filter_ne_nil_of_all_eq hall]

theorem timerInv_of_timers_nil {w : World} (h : w.pendingTimers = []) : TimerInv w := by
  refine ⟨by simp [h], fun hne => absurd h hne, fun id hid => ?_⟩
  rw [h] at hid
  cases hid

theorem timerInv_startEmbedded (f : String) (w : World) (h : TimerInv w) :
    TimerInv (startEmbeddedPreview f w).1 :=
  timerInv_of_timers_nil (startEmbedded_timers_nil f w h)

theorem timerInv_launchEmbedded (cfg : Config) (env : Env) (f : String) (r : Bool)
    (p : Option Nat) (w : World) (h : TimerInv w) :
    TimerInv (launchFileInEmbeddedPreview cfg env f r p w).1 := by
  obtain ⟨h1, h2, h3, h4, h5⟩ := transform_fst_fields cfg env r f w.mgr
  unfold launchFileInEmbeddedPreview
  cases hcp : w.mgr.currentPanel with
  | some v =>
      have hnil := timers_nil_of_panel_some h hcp
      simp only [h1, hcp]
      exact timerInv_of_timers_nil (by simpa using hnil)
  | none =>
      simp only [h1, hcp]
      exact timerInv_startEmbedded _ _
        (timerInv_transport w _ rfl (by simpa using h1) (by simpa using h3) h)

theorem showPreview_fst (cfg : Config) (env : Env) (ok : Bool) (f : String)
    (r : Bool) (w : World) :
    (showPreviewInBrowser cfg env ok f r w).1
        = { w with mgr := { w.mgr with pendingLaunchInfo := some ⟨true, f, r, none⟩ } }
    ∨ (showPreviewInBrowser cfg env ok f r w).1
        = { w with mgr := (transformNonRelativeFile cfg env r f w.mgr).1 } := by
  cases htr : w.taskRunning with
  | true =>
      right
      simp [showPreviewInBrowser, htr, launchExternal_fst]
  | false =>
      cases hs : w.serverRunning with
      | false =>
          left
          simp only [showPreviewInBrowser, htr, hs, Bool.not_false, Bool.not_true,
            if_true, if_false]
          split_ifs <;> simp [openServer_fst]
      | true =>
          right
          simp only [showPreviewInBrowser, htr, hs, Bool.not_false, Bool.not_true,
            if_true, if_false]
          split_ifs <;> simp_all [openServer_fst, launchExternal_fst]

theorem timerInv_filter (w : World) (h : TimerInv w) (id : Nat) :
    TimerInv { w with pendingTimers := w.pendingTimers.filter (fun t => t != id) } := by
  obtain ⟨h1, h2, h3⟩ := h
  refine ⟨?_, ?_, ?_⟩
  · exact le_trans (List.length_filter_le _ _) h1
  · intro hne
    apply h2
    intro hnil
    exact hne (by simp [hnil])
  · intro t ht
    exact h3 t (List.mem_filter.1 ht).1

theorem timerInv_step (cfg : Config) (env : Env) (ok : Bool) (e : Event) (w : World)
    (h : TimerInv w) (he : enabled e w) : TimerInv (step cfg env ok e w).1 := by
  cases e with
  | reqEmbedded p f r =>
      show TimerInv (createOrShowEmbeddedPreview cfg env ok p f r w).1
      cases hs : w.serverRunning with
      | false =>
          rw [createOrShow_stopped cfg env ok p f r w hs]
          exact timerInv_transport w _ rfl rfl rfl h
      | true =>
          unfold createOrShowEmbeddedPreview
          simp only [hs]
          exact timerInv_launchEmbedded cfg env f r p w h
  | reqBrowser f r =>
      show TimerInv (showPreviewInBrowser cfg env ok f r w).1
      rcases showPreview_fst cfg env ok f r w with hw | hw <;> rw [hw]
      · exact timerInv_transport w _ rfl rfl rfl h
      · obtain ⟨h1, h2, h3, h4, h5⟩ := transform_fst_fields cfg env r f w.mgr
        exact timerInv_transport w _ rfl h1 h3 h
  | openServerCmd ft =>
      show TimerInv (openServer ok ft w).1
      rw [openServer_fst]
      exact h
  | closeServerCmd =>
      show TimerInv (closeServer w).1
      exact timerInv_transport w _ (closeServer_timers w)
        (by rw [closeServer_mgr]) (by rw [closeServer_mgr]) h
  | connected =>
      show TimerInv (onConnected cfg env w).1
      unfold onConnected
      cases hp : w.mgr.pendingLaunchInfo with
      | none =>
          simp only [hp]
          exact timerInv_transport w _ rfl rfl rfl h
      | some info =>
          simp only [hp]
          have hw0 : TimerInv ({ w with serverRunning := true } : World) :=
            timerInv_transport w _ rfl rfl rfl h
          split_ifs with hx
          · obtain ⟨g1, g2, g3, g4, g5⟩ :=
              transform_fst_fields cfg env info.relative info.file w.mgr
            rw [launchExternal_fst]
            exact timerInv_transport w _ rfl g1 g3 h
          · have := timerInv_launchEmbedded cfg env info.file info.relative info.panel
              ({ w with serverRunning := true } : World) hw0
            exact timerInv_transport _ _ rfl rfl rfl this
  | panelDisposed =>
      obtain ⟨v, hv⟩ := Option.isSome_iff_exists.1 he
      have hnil := timers_nil_of_panel_some h hv
      show TimerInv (onPanelDisposed cfg w).1
      unfold onPanelDisposed
      refine ⟨by simp [hnil], by simp, ?_⟩
      intro t ht
      simp only [hnil, List.nil_append, List.mem_singleton] at ht
      simp [ht]
  | timerFired id =>
      have hf := timerInv_filter w h id
      show TimerInv (onShutdownTimerFired env id w).1
      unfold onShutdownTimerFired
      dsimp only
      split_ifs with hc
      · exact timerInv_transport _ _ (by simp [closeServer_timers])
          (by simp [closeServer_mgr]) (by simp [closeServer_mgr]) hf
      · exact timerInv_transport _ _ rfl rfl rfl hf
  | taskOpenReq =>
      show TimerInv (openServer ok true w).1
      rw [openServer_fst]
      exact h
  | taskCloseReq =>
      show TimerInv (onRequestToCloseServer w).1
      unfold onRequestToCloseServer
      split_ifs with hc
      · exact h
      · exact timerInv_transport w _ (closeServer_timers w)
          (by rw [closeServer_mgr]) (by rw [closeServer_mgr]) h
  | configChanged =>
      exact timerInv_transport w _ rfl rfl rfl h
  | taskStateChanged b =>
      exact timerInv_transport w _ rfl rfl rfl h

theorem timerInv_reachable (w : World) (h : Reachable w) : TimerInv w := by
  induction h with
  | init cfg => exact timerInv_of_timers_nil rfl
  | next cfg env ok e w hr he ih => exact timerInv_step cfg env ok e w ih he

theorem onConnected_dispatch_embedded (cfg : Config) (env : Env) (fB : String)
    (pB : Option Nat) (w : World)
    (hp : w.mgr.pendingLaunchInfo = some ⟨false, fB, true, pB⟩)
    (hcp : w.mgr.currentPanel = none) (hct : w.mgr.currentTimeout = none) :
    (onConnected cfg env w).2
      = [Effect.serverStarted ServerStartedStatus.JUST_STARTED]
        ++ (if pB.isSome then ([] : List Effect) else [Effect.createPanel])
        ++ [Effect.createSession fB]
    ∧ (onConnected cfg env w).1.mgr.currentPanel = some fB := by
  cases pB <;>
    simp [onConnected, hp, launchFileInEmbeddedPreview, startEmbeddedPreview,
      transform_relative, hcp, hct]

theorem launchExternal_counts (cfg : Config) (env : Env) (f : String) (r : Bool)
    (w : World) :
    nSessions (launchFileInExternalBrowser cfg env f r w).2 = 0
    ∧ nPanels (launchFileInExternalBrowser cfg env f r w).2 = 0
    ∧ nStarts (launchFileInExternalBrowser cfg env f r w).2 = 0 := by
  unfold launchFileInExternalBrowser
  rcases transform_effects_shape cfg env r f w.mgr with hte | hte | hte <;>
    simp [hte, nSessions, nPanels, nStarts, List.countP_append, Effect.isStart,
      Effect.isCreateSession, Effect.isCreatePanel]

theorem launchEmbedded_counts (cfg : Config) (env : Env) (f : String) (r : Bool)
    (p : Option Nat) (w : World) :
    nSessions (launchFileInEmbeddedPreview cfg env f r p w).2 ≤ 1
    ∧ nPanels (launchFileInEmbeddedPreview cfg env f r p w).2 ≤ 1
    ∧ nStarts (launchFileInEmbeddedPreview cfg env f r p w).2 = 0 := by
  obtain ⟨h1, h2, h3, h4, h5⟩ := transform_fst_fields cfg env r f w.mgr
  unfold launchFileInEmbeddedPreview startEmbeddedPreview
  rcases transform_effects_shape cfg env r f w.mgr with hte | hte | hte <;>
    cases hcp : w.mgr.currentPanel <;>
      cases hct : w.mgr.currentTimeout <;>
        cases p <;>
          simp_all [nSessions, nPanels, nStarts, List.countP_append, Effect.isStart,
            Effect.isCreateSession, Effect.isCreatePanel]

theorem onConnected_counts (cfg : Config) (env : Env) (w : World) :
    nSessions (onConnected cfg env w).2 ≤ 1
    ∧ nPanels (onConnected cfg env w).2 ≤ 1
    ∧ nStarts (onConnected cfg env w).2 = 0 := by
  unfold onConnected
  dsimp only
  cases hp : w.mgr.pendingLaunchInfo with
  | none =>
      simp [nSessions, nPanels, nStarts, Effect.isStart, Effect.isCreateSession,
        Effect.isCreatePanel]
  | some info =>
      by_cases hx : info.external = true
      · obtain ⟨c1, c2, c3⟩ := launchExternal_counts cfg env info.file info.relative
          ({ w with serverRunning := true } : World)
        simp only [nSessions, nPanels, nStarts] at c1 c2 c3 ⊢
        simp [hx, List.countP_append, Effect.isStart, Effect.isCreateSession,
          Effect.isCreatePanel, c1, c2, c3]
      · obtain ⟨c1, c2, c3⟩ := launchEmbedded_counts cfg env info.file info.relative
          info.panel ({ w with serverRunning := true } : World)
        simp only [nSessions, nPanels, nStarts] at c1 c2 c3 ⊢
        simp [hx, List.countP_append, Effect.isStart, Effect.isCreateSession,
          Effect.isCreatePanel, c3]
        exact ⟨c1, c2⟩

theorem runEmbedded_stopped (cfg : Config) (env : Env) (ok : Bool)
    (reqs : List (Option Nat × String × Bool)) (w : World)
    (h : w.serverRunning = false) :
    (runEmbedded cfg env ok reqs w).1.serverRunning = false
    ∧ nStarts (runEmbedded cfg env ok reqs w).2 = reqs.length
    ∧ nSessions (runEmbedded cfg env ok reqs w).2 = 0
    ∧ nPanels (runEmbedded cfg env ok reqs w).2 = 0 := by
  induction reqs generalizing w with
  | nil =>
      simp [runEmbedded, h, nStarts, nSessions, nPanels]
  | cons r rest ih =>
      have e1 := createOrShow_stopped cfg env ok r.1 r.2.1 r.2.2 w h
      have hs1 : (createOrShowEmbeddedPreview cfg env ok r.1 r.2.1 r.2.2 w).1.serverRunning
          = false := by
        rw [e1]
        exact h
      obtain ⟨g1, g2, g3, g4⟩ := ih _ hs1
      rw [e1] at g1 g2 g3 g4
      unfold runEmbedded
      dsimp only
      rw [e1]
      refine ⟨g1, ?_, ?_, ?_⟩ <;>
        simp [nStarts, nSessions, nPanels, List.countP_append,
          List.countP_cons, List.countP_nil, List.length_cons, Effect.isStart,
          Effect.isCreateSession, Effect.isCreatePanel] at g2 g3 g4 ⊢
      · omega
      · exact g3
      · exact g4

/-! ### The claims -/

/-- C6: `openServer` returns the `Server.openServer` start result when the
server is not running; when it is already running it returns `true`, and it
notifies the task provider with `STARTED_BY_EMBEDDED_PREV` exactly when
`fromTask` is true — never with `JUST_STARTED`, which only the
connected-event handler emits. -/
theorem C6_openServer_behaviour :
    (∀ (ok ft : Bool) (w : World), w.serverRunning = false →
      openServer ok ft w = (w, [Effect.serverStartRequest w.httpPort], ok))
    ∧ (∀ (ok : Bool) (w : World), w.serverRunning = true →
      openServer ok true w
        = (w, [Effect.serverStarted ServerStartedStatus.STARTED_BY_EMBEDDED_PREV], true))
    ∧ (∀ (ok : Bool) (w : World), w.serverRunning = true →
      openServer ok false w = (w, [], true))
    ∧ (∀ (ok ft : Bool) (w : World),
      Effect.serverStarted ServerStartedStatus.JUST_STARTED ∉ (openServer ok ft w).2.1)
    ∧ (∀ (cfg : Config) (env : Env) (w : World),
      Effect.serverStarted ServerStartedStatus.JUST_STARTED ∈ (onConnected cfg env w).2) := by
  refine ⟨?_, ?_, ?_, ?_, ?_⟩
  · intro ok ft w h
    simp [openServer, h]
  · intro ok w h
    simp [openServer, h]
  · intro ok w h
    simp [openServer, h]
  · intro ok ft w
    unfold openServer
    split_ifs <;> simp
  · intro cfg env w
    unfold onConnected
    dsimp only
    cases hp : w.mgr.pendingLaunchInfo with
    | none => simp [hp]
    | some info => simp [hp]

/-- C6 witness: the already-running, `fromTask = true` case at a concrete
world. -/
theorem C6_witness :
    wRunFix.serverRunning = true
    ∧ openServer true true wRunFix
        = (wRunFix, [Effect.serverStarted ServerStartedStatus.STARTED_BY_EMBEDDED_PREV],
           true) :=
  ⟨rfl, C6_openServer_behaviour.2.1 true wRunFix rfl⟩

/-- C7: `closeServer` performs the full teardown (stop the server, close a
live panel, stop an active task, mark disconnected) and returns `true`
exactly when the server is running; otherwise it returns `false` and issues
no effect and changes nothing. -/
theorem C7_closeServer_behaviour (w : World) :
    (w.serverRunning = true →
      (closeServer w).2.2 = true
      ∧ (closeServer w).1 = { w with serverRunning := false }
      ∧ (closeServer w).2.1 =
          [Effect.serverClose]
            ++ (if w.mgr.currentPanel.isSome then [Effect.closePanel] else [])
            ++ (if w.taskRunning then [Effect.serverStop true] else [])
            ++ [Effect.disconnected])
    ∧ (w.serverRunning = false →
      (closeServer w).2.2 = false ∧ (closeServer w).1 = w ∧ (closeServer w).2.1 = []) := by
  constructor <;> intro h <;> simp [closeServer, h]

/-- C7 witness: both branches at concrete worlds — full teardown when
running, no observable side effect when stopped. -/
theorem C7_witness :
    wRunFix.serverRunning = true
    ∧ ((closeServer wRunFix).2.2 = true
        ∧ (closeServer wRunFix).1 = { wRunFix with serverRunning := false }
        ∧ (closeServer wRunFix).2.1 =
            [Effect.serverClose]
              ++ (if wRunFix.mgr.currentPanel.isSome then [Effect.closePanel] else [])
              ++ (if wRunFix.taskRunning then [Effect.serverStop true] else [])
              ++ [Effect.disconnected])
    ∧ w0Fix.serverRunning = false
    ∧ ((closeServer w0Fix).2.2 = false ∧ (closeServer w0Fix).1 = w0Fix
        ∧ (closeServer w0Fix).2.1 = []) :=
  ⟨rfl, (C7_closeServer_behaviour wRunFix).1 rfl, rfl,
   (C7_closeServer_behaviour w0Fix).2 rfl⟩

/-- C9 counterexample: `/otherws/f.html` lies in a known workspace that is
not the default one; `transformNonRelativeFile` encodes it as a loose file
but fires no warning at all — no telemetry, no prompt, latch untouched —
contradicting the claim that the one-shot loose-file warning fires. -/
theorem C9_counterexample :
    (transformNonRelativeFile cfgFix envFix false "/otherws/f.html" w0Fix.mgr).2.1 = []
    ∧ (transformNonRelativeFile cfgFix envFix false "/otherws/f.html"
        w0Fix.mgr).1.notifiedAboutLooseFiles = false
    ∧ (transformNonRelativeFile cfgFix envFix false "/otherws/f.html" w0Fix.mgr).2.2
        = encodeLooseFileEndpoint "/otherws/f.html" := by
  decide

/-- C9 (amended): a non-relative path inside some known workspace but not
the default one is treated as loose — encoded through the EndpointManager —
but `notifyLooseFileOpen` is skipped, so no warning and no telemetry fire
and the latch is not set. -/
theorem C9_anyWorkspace_loose_no_warning (cfg : Config) (env : Env) (f : String)
    (s : ManagerState) (hdef : env.absPathInDefaultWorkspace f = false)
    (hany : env.absPathInAnyWorkspace f = true) :
    transformNonRelativeFile cfg env false f s = (s, [], encodeLooseFileEndpoint f) := by
  simp [transformNonRelativeFile, hdef, hany]

/-- C9 witness: the amended claim at the sample layout. -/
theorem C9_witness :
    envFix.absPathInDefaultWorkspace "/otherws/f.html" = false
    ∧ envFix.absPathInAnyWorkspace "/otherws/f.html" = true
    ∧ transformNonRelativeFile cfgFix envFix false "/otherws/f.html" w0Fix.mgr
        = (w0Fix.mgr, [], encodeLooseFileEndpoint "/otherws/f.html") :=
  ⟨by decide, by decide,
   C9_anyWorkspace_loose_no_warning cfgFix envFix "/otherws/f.html" w0Fix.mgr
     (by decide) (by decide)⟩

/-- C1: the pending-launch intent is a single last-write-wins slot — a
second request made before the server connects overwrites the first; it is
set only while the server is stopped, the connected handler dispatches only
the surviving intent (one session, for B's file; A produces nothing) and
clears the slot, and no other event ever consumes it. -/
theorem C1_pending_launch_slot :
    (∀ (cfg : Config) (env : Env) (ok : Bool) (pA : Option Nat) (fA : String)
       (rA : Bool) (pB : Option Nat) (fB : String) (w : World),
      w.serverRunning = false →
      (createOrShowEmbeddedPreview cfg env ok pA fA rA w).1.mgr.pendingLaunchInfo
          = some ⟨false, fA, rA, pA⟩
      ∧ (createOrShowEmbeddedPreview cfg env ok pB fB true
           (createOrShowEmbeddedPreview cfg env ok pA fA rA w).1).1.mgr.pendingLaunchInfo
          = some ⟨false, fB, true, pB⟩
      ∧ (w.mgr.currentPanel = none → w.mgr.currentTimeout = none →
          (onConnected cfg env (createOrShowEmbeddedPreview cfg env ok pB fB true
             (createOrShowEmbeddedPreview cfg env ok pA fA rA w).1).1).2
            = [Effect.serverStarted ServerStartedStatus.JUST_STARTED]
              ++ (if pB.isSome then ([] : List Effect) else [Effect.createPanel])
              ++ [Effect.createSession fB]
          ∧ (onConnected cfg env (createOrShowEmbeddedPreview cfg env ok pB fB true
               (createOrShowEmbeddedPreview cfg env ok pA fA rA w).1).1).1.mgr.currentPanel
            = some fB))
    ∧ (∀ (cfg : Config) (env : Env) (ok : Bool) (p : Option Nat) (f : String)
        (r : Bool) (w : World), w.serverRunning = true →
      (createOrShowEmbeddedPreview cfg env ok p f r w).1.mgr.pendingLaunchInfo
        = w.mgr.pendingLaunchInfo)
    ∧ (∀ (cfg : Config) (env : Env) (w : World),
      (onConnected cfg env w).1.mgr.pendingLaunchInfo = none)
    ∧ (∀ (cfg : Config) (env : Env) (ok : Bool) (e : Event) (w : World),
      e ≠ Event.connected → w.mgr.pendingLaunchInfo.isSome = true →
      ((step cfg env ok e w).1.mgr.pendingLaunchInfo).isSome = true) := by
  refine ⟨?_, ?_, ?_, ?_⟩
  · intro cfg env ok pA fA rA pB fB w h
    have e1 := createOrShow_stopped cfg env ok pA fA rA w h
    have hs1 : (createOrShowEmbeddedPreview cfg env ok pA fA rA w).1.serverRunning
        = false := by
      rw [e1]
      exact h
    have e2 := createOrShow_stopped cfg env ok pB fB true
      (createOrShowEmbeddedPreview cfg env ok pA fA rA w).1 hs1
    refine ⟨by rw [e1], by rw [e2, e1], ?_⟩
    intro hcp hct
    refine onConnected_dispatch_embedded cfg env fB pB _ ?_ ?_ ?_
    · rw [e2, e1]
    · rw [e2, e1]
      exact hcp
    · rw [e2, e1]
      exact hct
  · intro cfg env ok p f r w h
    have hf := (launchEmbedded_frame cfg env f r p w).2.2.1
    simp [createOrShowEmbeddedPreview, h, hf]
  · intro cfg env w
    unfold onConnected
    dsimp only
    cases hp : w.mgr.pendingLaunchInfo with
    | none => simp [hp]
    | some info => rfl
  · intro cfg env ok e w hne hsome
    cases e with
    | reqEmbedded p f r =>
        simp only [step]
        cases hs : w.serverRunning with
        | false =>
            rw [createOrShow_stopped cfg env ok p f r w hs]
            rfl
        | true =>
            have hf := (launchEmbedded_frame cfg env f r p w).2.2.1
            simp [createOrShowEmbeddedPreview, hs, hf, hsome]
    | reqBrowser f r =>
        simp only [step]
        rcases showPreview_fst cfg env ok f r w with hw | hw <;> rw [hw]
        · rfl
        · have h4 := (transform_fst_fields cfg env r f w.mgr).2.2.2.1
          simp [h4, hsome]
    | openServerCmd ft =>
        simp only [step]
        rw [openServer_fst]
        exact hsome
    | closeServerCmd =>
        simp only [step]
        rw [closeServer_mgr]
        exact hsome
    | connected => exact absurd rfl hne
    | panelDisposed => exact hsome
    | timerFired id =>
        simp only [step]
        unfold onShutdownTimerFired
        dsimp only
        split_ifs with hc
        · simp only [closeServer_mgr]
          exact hsome
        · exact hsome
    | taskOpenReq =>
        simp only [step]
        rw [openServer_fst]
        exact hsome
    | taskCloseReq =>
        simp only [step]
        unfold onRequestToCloseServer
        dsimp only
        split_ifs with hc
        · exact hsome
        · simp only [closeServer_mgr]
          exact hsome
    | configChanged => exact hsome
    | taskStateChanged b => exact hsome

/-- C1 witness: the two-request scenario at the initial world — A then B
queued before the server connects; one panel, one session, for B. -/
theorem C1_witness :
    w0Fix.serverRunning = false ∧ w0Fix.mgr.currentPanel = none
    ∧ w0Fix.mgr.currentTimeout = none
    ∧ (createOrShowEmbeddedPreview cfgFix envFix true none "A.html" true
        w0Fix).1.mgr.pendingLaunchInfo = some ⟨false, "A.html", true, none⟩
    ∧ (createOrShowEmbeddedPreview cfgFix envFix true none "B.html" true
        (createOrShowEmbeddedPreview cfgFix envFix true none "A.html" true
          w0Fix).1).1.mgr.pendingLaunchInfo = some ⟨false, "B.html", true, none⟩
    ∧ (onConnected cfgFix envFix (createOrShowEmbeddedPreview cfgFix envFix true none
        "B.html" true (createOrShowEmbeddedPreview cfgFix envFix true none "A.html" true
          w0Fix).1).1).2
      = [Effect.serverStarted ServerStartedStatus.JUST_STARTED, Effect.createPanel,
         Effect.createSession "B.html"] := by
  have h := C1_pending_launch_slot.1 cfgFix envFix true none "A.html" true none
    "B.html" w0Fix rfl
  exact ⟨rfl, rfl, rfl, h.1, h.2.1, by simpa using (h.2.2 rfl rfl).1⟩

/-- C3 counterexample: connect the server, open an embedded preview, then
dispose its panel.  In the window after the panel-dispose event and before
the shutdown timer fires, the session is gone but `previewActive` is still
`true`, so a task-bridge close request only does `serverStop(false)` and
leaves the server running — the claim says `previewActive` would be false
there and the server would be fully closed. -/
theorem C3_counterexample :
    wDisposedFix.mgr.currentPanel = none
    ∧ wDisposedFix.mgr.previewActive = true
    ∧ onRequestToCloseServer wDisposedFix
        = (wDisposedFix, [Effect.serverStop false]) := by
  decide

/-- C3 (amended): `previewActive` becomes true when a session starts and is
cleared only by the shutdown-timer callback; the panel-dispose handler
leaves it unchanged, so it stays true during the keep-alive window, and a
task-bridge close request arriving then performs only `serverStop(false)`
and does not close the server. -/
theorem C3_previewActive_lifecycle :
    (∀ (f : String) (w : World), (startEmbeddedPreview f w).1.mgr.previewActive = true)
    ∧ (∀ (cfg : Config) (w : World),
      (onPanelDisposed cfg w).1.mgr.previewActive = w.mgr.previewActive)
    ∧ (∀ (env : Env) (id : Nat) (w : World),
      (onShutdownTimerFired env id w).1.mgr.previewActive = false)
    ∧ (∀ w : World, w.mgr.previewActive = true →
      onRequestToCloseServer w = (w, [Effect.serverStop false])) := by
  refine ⟨fun f w => rfl, fun cfg w => rfl, ?_, ?_⟩
  · intro env id w
    unfold onShutdownTimerFired
    dsimp only
    split_ifs <;> rfl
  · intro w h
    simp [onRequestToCloseServer, h]

/-- C3 witness: the amended lifecycle at the disposed-panel world. -/
theorem C3_witness :
    wDisposedFix.mgr.previewActive = true
    ∧ onRequestToCloseServer wDisposedFix = (wDisposedFix, [Effect.serverStop false])
    ∧ (onShutdownTimerFired envFix 0 wDisposedFix).1.mgr.previewActive = false :=
  ⟨by decide, C3_previewActive_lifecycle.2.2.2 wDisposedFix (by decide),
   C3_previewActive_lifecycle.2.2.1 envFix 0 wDisposedFix⟩

/-- C4 counterexample: with no task path available and the direct server
start failing, `showPreviewInBrowser` leaves the pending external intent
stored — and when the server later connects (say a task starts it) the
stale intent IS dispatched to the external browser.  The claim says the
intent does not survive to be dispatched later.  (`showPreviewInBrowser`
also returns no boolean at all.) -/
theorem C4_counterexample :
    wFailedStartFix.mgr.pendingLaunchInfo = some ⟨true, "/x.html", true, none⟩
    ∧ nExternal (step cfgFixNoTask envFix true Event.connected wFailedStartFix).2 = 1 := by
  decide

/-- C4 (amended): when the server is stopped, no task flow is active and
the task path is unavailable, a failing direct start leaves exactly one
start request as the call's only effect — no panel, no session, no task —
and the inner `openServer` call yields `false`; but the method returns no
boolean to its caller and the stored pending-launch intent is NOT cleared:
it survives in the slot. -/
theorem C4_failed_direct_start (cfg : Config) (env : Env) (f : String) (r : Bool)
    (ok : Bool) (w : World)
    (htask : w.taskRunning = false)
    (hsrv : w.serverRunning = false)
    (hdirect : (env.hasWorkspace && w.mgr.runTaskWithExternalPreview) = false) :
    showPreviewInBrowser cfg env ok f r w
      = ({ w with mgr := { w.mgr with pendingLaunchInfo := some ⟨true, f, r, none⟩ } },
         [Effect.serverStartRequest w.httpPort])
    ∧ (openServer false false w).2.2 = false := by
  constructor
  · simp only [showPreviewInBrowser, htask, hsrv, Bool.not_false, Bool.not_true,
      if_true, if_false]
    simp only [Bool.and_eq_false_iff] at hdirect
    rcases hdirect with h | h <;> simp [openServer, h]
  · simp [openServer, hsrv]

/-- C4 witness: the amended behaviour at the failing-start fixture. -/
theorem C4_witness :
    (initWorld cfgFixNoTask).taskRunning = false
    ∧ (initWorld cfgFixNoTask).serverRunning = false
    ∧ (envFix.hasWorkspace
        && (initWorld cfgFixNoTask).mgr.runTaskWithExternalPreview) = false
    ∧ showPreviewInBrowser cfgFixNoTask envFix false "/x.html" true
        (initWorld cfgFixNoTask)
      = ({ initWorld cfgFixNoTask with mgr := { (initWorld cfgFixNoTask).mgr with
            pendingLaunchInfo := some ⟨true, "/x.html", true, none⟩ } },
         [Effect.serverStartRequest (initWorld cfgFixNoTask).httpPort])
    ∧ (openServer false false (initWorld cfgFixNoTask)).2.2 = false := by
  have h := C4_failed_direct_start cfgFixNoTask envFix "/x.html" true false
    (initWorld cfgFixNoTask) rfl rfl (by decide)
  exact ⟨rfl, rfl, by decide, h.1, h.2⟩

/-- C8: a non-relative path inside the default workspace is rewritten to
its workspace-relative form, and the external-browser URI builder
normalizes backslashes to forward slashes; a non-relative path outside any
known workspace is encoded through the EndpointManager — distinct from the
literal path — with the warning prompt shown on the first such call (latch
unset, setting enabled) and suppressed on every later call of the same
coordinator lifetime. -/
theorem C8_transform_paths :
    (∀ (cfg : Config) (env : Env) (f : String) (s : ManagerState),
      env.absPathInDefaultWorkspace f = true →
      transformNonRelativeFile cfg env false f s
        = (s, [], env.getFileRelativeToDefaultWorkspace f))
    ∧ (∀ (cfg : Config) (env : Env) (f : String) (r : Bool) (w : World),
      (launchFileInExternalBrowser cfg env f r w).2
        = (transformNonRelativeFile cfg env r f w.mgr).2.1
          ++ [Effect.openExternalBrowser
              ("http://" ++ HOST ++ ":" ++ toString w.httpPort
                ++ normalizeSlashes (transformNonRelativeFile cfg env r f w.mgr).2.2)])
    ∧ (∀ f : String, ('\\' : Char) ∉ (normalizeSlashes f).data)
    ∧ (∀ (cfg : Config) (env : Env) (f : String) (s : ManagerState),
      env.absPathInDefaultWorkspace f = false →
      env.absPathInAnyWorkspace f = false →
      (transformNonRelativeFile cfg env false f s).2.2 = encodeLooseFileEndpoint f
      ∧ encodeLooseFileEndpoint f ≠ f
      ∧ (s.notifiedAboutLooseFiles = false → cfg.notifyOnOpenLooseFile = true →
          Effect.showWarningPrompt ∈ (transformNonRelativeFile cfg env false f s).2.1)
      ∧ (transformNonRelativeFile cfg env false f s).1.notifiedAboutLooseFiles = true
      ∧ (s.notifiedAboutLooseFiles = true →
          Effect.showWarningPrompt ∉ (transformNonRelativeFile cfg env false f s).2.1)) := by
  refine ⟨?_, ?_, ?_, ?_⟩
  · intro cfg env f s h
    simp [transformNonRelativeFile, h]
  · intro cfg env f r w
    rfl
  · intro f h
    simp only [normalizeSlashes, List.mem_map] at h
    obtain ⟨c, -, hc⟩ := h
    by_cases h' : c = '\\' <;> simp [h'] at hc
  · intro cfg env f s hdef hany
    refine ⟨?_, ?_, ?_, ?_, ?_⟩
    · simp [transformNonRelativeFile, notifyLooseFileOpen, hdef, hany]
    · intro h
      have := congrArg (fun s => s.data.length) h
      simp [encodeLooseFileEndpoint, String.data_append] at this
      omega
    · intro hlatch hset
      simp [transformNonRelativeFile, notifyLooseFileOpen, hdef, hany, hlatch, hset]
    · simp [transformNonRelativeFile, notifyLooseFileOpen, hdef, hany]
    · intro hlatch
      simp [transformNonRelativeFile, notifyLooseFileOpen, hdef, hany, hlatch]

/-- C8 witness: the in-default-workspace rewrite, a backslashed Windows
path normalized for the external URI, and a loose path encoded with the
prompt shown once then suppressed, all at the sample layout. -/
theorem C8_witness :
    envFix.absPathInDefaultWorkspace "/ws/sub/page.html" = true
    ∧ transformNonRelativeFile cfgFix envFix false "/ws/sub/page.html" w0Fix.mgr
        = (w0Fix.mgr, [], "sub/page.html")
    ∧ ('\\' : Char) ∉ (normalizeSlashes "C:\\x\\y.html").data
    ∧ envFix.absPathInDefaultWorkspace "/a/loose.html" = false
    ∧ envFix.absPathInAnyWorkspace "/a/loose.html" = false
    ∧ w0Fix.mgr.notifiedAboutLooseFiles = false
    ∧ cfgFix.notifyOnOpenLooseFile = true
    ∧ Effect.showWarningPrompt
        ∈ (transformNonRelativeFile cfgFix envFix false "/a/loose.html" w0Fix.mgr).2.1
    ∧ (transformNonRelativeFile cfgFix envFix false "/a/loose.html"
        w0Fix.mgr).1.notifiedAboutLooseFiles = true
    ∧ Effect.showWarningPrompt
        ∉ (transformNonRelativeFile cfgFix envFix false "/a/loose.html"
            (transformNonRelativeFile cfgFix envFix false "/a/loose.html"
              w0Fix.mgr).1).2.1 := by
  have h4 := C8_transform_paths.2.2.2 cfgFix envFix "/a/loose.html" w0Fix.mgr
    (by decide) (by decide)
  have h1 := C8_transform_paths.1 cfgFix envFix "/ws/sub/page.html" w0Fix.mgr (by decide)
  have h3 := C8_transform_paths.2.2.1 "C:\\x\\y.html"
  have h5 := C8_transform_paths.2.2.2 cfgFix envFix "/a/loose.html"
    (transformNonRelativeFile cfgFix envFix false "/a/loose.html" w0Fix.mgr).1
    (by decide) (by decide)
  exact ⟨by decide, by simpa using h1, h3, by decide, by decide, rfl, rfl,
    h4.2.2.1 rfl rfl, h4.2.2.2.1, h5.2.2.2.2 h4.2.2.2.1⟩

/-- C2 counterexample: two `createOrShowEmbeddedPreview` calls while the
server is stopped issue two server-start requests to the ServerProcess —
the claim's "exactly one server-start request" for every such sequence is
false. -/
theorem C2_counterexample :
    nStarts (runEmbedded cfgFix envFix true
        [(none, "/a.html", true), (none, "/b.html", true)] w0Fix).2 = 2
    ∧ nStarts (runEmbedded cfgFix envFix true
        [(none, "/a.html", true), (none, "/b.html", true)] w0Fix).2 ≠ 1 := by
  decide

/-- C2 (amended): every `createOrShowEmbeddedPreview` call made while the
server is stopped issues exactly one server-start request — a sequence of n
calls issues n requests, not one overall — and creates no session or panel;
once the server connects, at most one PreviewSession (and at most one
panel) is created and no further start request is issued. -/
theorem C2_starts_and_sessions (cfg : Config) (env : Env) (ok : Bool)
    (reqs : List (Option Nat × String × Bool)) (w : World)
    (h : w.serverRunning = false) :
    nStarts (runEmbedded cfg env ok reqs w).2 = reqs.length
    ∧ nSessions (runEmbedded cfg env ok reqs w).2 = 0
    ∧ nPanels (runEmbedded cfg env ok reqs w).2 = 0
    ∧ nSessions (onConnected cfg env (runEmbedded cfg env ok reqs w).1).2 ≤ 1
    ∧ nPanels (onConnected cfg env (runEmbedded cfg env ok reqs w).1).2 ≤ 1
    ∧ nStarts (onConnected cfg env (runEmbedded cfg env ok reqs w).1).2 = 0 := by
  obtain ⟨g1, g2, g3, g4⟩ := runEmbedded_stopped cfg env ok reqs w h
  obtain ⟨c1, c2, c3⟩ := onConnected_counts cfg env (runEmbedded cfg env ok reqs w).1
  exact ⟨g2, g3, g4, c1, c2, c3⟩

/-- C2 witness: the two-request sequence — two start requests before the
connect, then exactly one panel and one session. -/
theorem C2_witness :
    w0Fix.serverRunning = false
    ∧ nStarts (runEmbedded cfgFix envFix true
        [(none, "/a.html", true), (none, "/b.html", true)] w0Fix).2 = 2
    ∧ nSessions (onConnected cfgFix envFix (runEmbedded cfgFix envFix true
        [(none, "/a.html", true), (none, "/b.html", true)] w0Fix).1).2 ≤ 1 := by
  have h := C2_starts_and_sessions cfgFix envFix true
    [(none, "/a.html", true), (none, "/b.html", true)] w0Fix rfl
  exact ⟨rfl, h.1, h.2.2.2.1⟩

/-- C5: disposing the sole session schedules a shutdown timer of
`keepAlive * 60` seconds, at most one timer is ever pending in any
reachable world, a new embedded request made before the timer fires cancels
it while the server stays running, and when the timer fires the server is
closed exactly under the four documented conditions while `previewActive`
is cleared regardless. -/
theorem C5_shutdown_timer :
    (∀ w : World, Reachable w → w.pendingTimers.length ≤ 1)
    ∧ (∀ (cfg : Config) (w : World),
      (onPanelDisposed cfg w).2
        = [Effect.scheduleTimer (cfg.serverKeepAliveAfterEmbeddedPreviewClose * 1000 * 60)]
      ∧ (onPanelDisposed cfg w).1.mgr.currentTimeout = some w.nextTimerId
      ∧ (onPanelDisposed cfg w).1.pendingTimers = w.pendingTimers ++ [w.nextTimerId])
    ∧ (∀ (cfg : Config) (env : Env) (ok : Bool) (p : Option Nat) (f : String)
        (r : Bool) (w : World) (id : Nat),
      w.serverRunning = true → w.mgr.currentPanel = none →
      w.mgr.currentTimeout = some id → w.pendingTimers = [id] →
      (createOrShowEmbeddedPreview cfg env ok p f r w).1.pendingTimers = []
      ∧ (createOrShowEmbeddedPreview cfg env ok p f r w).1.serverRunning = true
      ∧ Effect.cancelTimer ∈ (createOrShowEmbeddedPreview cfg env ok p f r w).2
      ∧ Effect.serverClose ∉ (createOrShowEmbeddedPreview cfg env ok p f r w).2)
    ∧ (∀ (env : Env) (id : Nat) (w : World),
      (onShutdownTimerFired env id w).1.mgr.previewActive = false
      ∧ ((w.serverRunning && !w.taskRunning && env.hasWorkspace
           && w.mgr.runTaskWithExternalPreview) = true →
          (onShutdownTimerFired env id w).1.serverRunning = false
          ∧ Effect.serverClose ∈ (onShutdownTimerFired env id w).2)
      ∧ ((w.serverRunning && !w.taskRunning && env.hasWorkspace
           && w.mgr.runTaskWithExternalPreview) = false →
          (onShutdownTimerFired env id w).2 = []
          ∧ (onShutdownTimerFired env id w).1.serverRunning = w.serverRunning)) := by
  refine ⟨?_, ?_, ?_, ?_⟩
  · intro w h
    exact (timerInv_reachable w h).1
  · intro cfg w
    exact ⟨rfl, rfl, rfl⟩
  · intro cfg env ok p f r w id hs hcp hct htm
    obtain ⟨g1, g2, g3, g4, g5⟩ := transform_fst_fields cfg env r f w.mgr
    rcases transform_effects_shape cfg env r f w.mgr with hte | hte | hte <;>
      cases p <;>
        simp_all [createOrShowEmbeddedPreview, launchFileInEmbeddedPreview,
          startEmbeddedPreview]
  · intro env id w
    unfold onShutdownTimerFired
    dsimp only
    split_ifs with hc
    · have hs : w.serverRunning = true := by
        simp only [Bool.and_eq_true] at hc
        exact hc.1.1.1
      refine ⟨rfl, fun h1 => ?_, fun h2 => ?_⟩
      · exact ⟨by simp [closeServer, hs], by simp [closeServer, hs]⟩
      · exact absurd hc (by simp [h2])
    · refine ⟨rfl, fun h1 => absurd h1 hc, fun h2 => ⟨rfl, rfl⟩⟩

/-- C5 witness: the disposed-panel world — timer pending, a new request
cancels it with the server still running; the timer callback clears
`previewActive`; the reachability invariant at an initial world. -/
theorem C5_witness :
    (initWorld cfgFix).pendingTimers.length ≤ 1
    ∧ (onPanelDisposed cfgFix w0Fix).2 = [Effect.scheduleTimer 60000]
    ∧ wDisposedFix.serverRunning = true
    ∧ wDisposedFix.mgr.currentPanel = none
    ∧ wDisposedFix.mgr.currentTimeout = some 0
    ∧ wDisposedFix.pendingTimers = [0]
    ∧ (createOrShowEmbeddedPreview cfgFix envFix true none "/" true
        wDisposedFix).1.pendingTimers = []
    ∧ (createOrShowEmbeddedPreview cfgFix envFix true none "/" true
        wDisposedFix).1.serverRunning = true
    ∧ Effect.cancelTimer ∈ (createOrShowEmbeddedPreview cfgFix envFix true none "/"
        true wDisposedFix).2
    ∧ Effect.serverClose ∉ (createOrShowEmbeddedPreview cfgFix envFix true none "/"
        true wDisposedFix).2
    ∧ (onShutdownTimerFired envFix 0 wDisposedFix).1.mgr.previewActive = false := by
  have h1 := C5_shutdown_timer.1 (initWorld cfgFix) (Reachable.init cfgFix)
  have h2 := (C5_shutdown_timer.2.1 cfgFix w0Fix).1
  have h3 := C5_shutdown_timer.2.2.1 cfgFix envFix true none "/" true wDisposedFix 0
    (by decide) (by decide) (by decide) (by decide)
  have h4 := (C5_shutdown_timer.2.2.2 envFix 0 wDisposedFix).1
  refine ⟨h1, ?_, by decide, by decide, by decide, by decide,
    h3.1, h3.2.1, h3.2.2.1, h3.2.2.2, h4⟩
  rw [h2]
  decide

/-- C10: every `notifyLooseFileOpen` call sets the latch and sends the
telemetry event regardless of the prompt setting; the prompt is withheld
when the setting is off, and once the latch is set — e.g. by a first call
made while the setting was off — no later call shows the prompt, whatever
the setting then says. -/
theorem C10_notify_latch :
    (∀ (cfg : Config) (s : ManagerState),
      (notifyLooseFileOpen cfg s).1 = { s with notifiedAboutLooseFiles := true }
      ∧ Effect.telemetry "preview.fileOutOfWorkspace" ∈ (notifyLooseFileOpen cfg s).2)
    ∧ (∀ (cfg : Config) (s : ManagerState), cfg.notifyOnOpenLooseFile = false →
      Effect.showWarningPrompt ∉ (notifyLooseFileOpen cfg s).2)
    ∧ (∀ (cfg cfg' : Config) (s : ManagerState),
      Effect.showWarningPrompt ∉
        (notifyLooseFileOpen cfg' (notifyLooseFileOpen cfg s).1).2) := by
  refine ⟨?_, ?_, ?_⟩
  · intro cfg s
    refine ⟨rfl, ?_⟩
    unfold notifyLooseFileOpen
    split_ifs <;> simp
  · intro cfg s h
    simp [notifyLooseFileOpen, h]
  · intro cfg cfg' s
    simp [notifyLooseFileOpen]

/-- C10 witness: first loose-file call with the prompt setting disabled,
second call with it enabled — the prompt never shows. -/
theorem C10_witness :
    cfgFixNoPrompt.notifyOnOpenLooseFile = false
    ∧ Effect.showWarningPrompt ∉ (notifyLooseFileOpen cfgFixNoPrompt w0Fix.mgr).2
    ∧ Effect.showWarningPrompt ∉
        (notifyLooseFileOpen cfgFix (notifyLooseFileOpen cfgFixNoPrompt w0Fix.mgr).1).2 :=
  ⟨rfl, (C10_notify_latch.2.1 cfgFixNoPrompt w0Fix.mgr rfl),
   C10_notify_latch.2.2 cfgFixNoPrompt cfgFix w0Fix.mgr⟩

end LivePreview
